import Mathlib

/-!
# Shallow embedding of the embiggen evaluation-orchestration core

This file embeds, in Lean 4, the parts of the `embiggen` repository that the
verified claims are about:

* `embiggen/edge_label_prediction/edge_label_prediction_model.py`
  (`AbstractEdgeLabelPredictionModel`);
* `embiggen/node_label_prediction/node_label_prediction_model.py`
  (`AbstractNodeLabelPredictionModel`);
* `embiggen/similarities/dag_resnik.py` (`DAGResnik`).

The external graph engine (`ensmallen`) is opaque: calls into it are
represented by explicit "engine call" data (for the splitters) or by abstract
function fields (for predictions), so theorems can speak about *which*
primitive is invoked and with *which* arguments.  Python exceptions are
represented with `Except` over an explicit error type.
-/

namespace Embiggen

/-- Python exception values that the embedded code can raise. -/
inductive PyError where
  | valueError (msg : String)
  | notImplementedError (msg : String)
  | typeError (msg : String)
  deriving DecidableEq, Repr

/-- Python's `needle in haystack` substring test on strings. -/
def strContains (haystack needle : String) : Bool :=
  decide (needle.data <:+: haystack.data)

/-- `AbstractEdgeLabelPredictionModel.get_available_evaluation_schemas`.
In the Python source the last two string literals are adjacent with no comma
between them, so Python's implicit string-literal concatenation makes the
returned list have three entries, the last being `"Stratified KfoldKfold"`. -/
def AbstractEdgeLabelPredictionModel.get_available_evaluation_schemas : List String :=
  [
    "Stratified Monte Carlo",
    "Monte Carlo",
    "Stratified KfoldKfold"
  ]

/-- `AbstractNodeLabelPredictionModel.get_available_evaluation_schemas`. -/
def AbstractNodeLabelPredictionModel.get_available_evaluation_schemas : List String :=
  [
    "Stratified Monte Carlo",
    "Monte Carlo",
    "Stratified Kfold",
    "Kfold"
  ]

/-- The graph-engine primitives that
`AbstractEdgeLabelPredictionModel.split_graph_following_evaluation_schema`
can invoke, with the exact arguments handed to the engine.
`G` is the (opaque) graph type, `K` the type of the forwarded
`holdouts_kwargs`. -/
inductive EdgeEngineCall (G K : Type) where
  | get_edge_label_holdout_graphs
      (graph : G) (kwargs : K) (use_stratification : Bool) (random_state : ℤ)
  | get_edge_label_kfold
      (graph : G) (k : ℕ) (k_index : ℕ) (use_stratification : Bool) (random_state : ℤ)
  deriving DecidableEq, Repr

/-- `AbstractEdgeLabelPredictionModel.split_graph_following_evaluation_schema`.
Returns the engine call performed (the engine then produces the train/test
tuple) or the raised exception. -/
def AbstractEdgeLabelPredictionModel.split_graph_following_evaluation_schema
    (G K : Type) (graph : G) (evaluation_schema : String)
    (number_of_holdouts : ℕ) (random_state : ℤ)
    (holdouts_kwargs : K) (holdout_number : ℕ) :
    Except PyError (EdgeEngineCall G K) :=
  if evaluation_schema ∈ ["Stratified Monte Carlo", "Monte Carlo"] then
    Except.ok (.get_edge_label_holdout_graphs graph holdouts_kwargs
      (strContains evaluation_schema "Stratified")
      (random_state + holdout_number))
  else if evaluation_schema ∈ ["Kfold", "Stratified Kfold"] then
    Except.ok (.get_edge_label_kfold graph number_of_holdouts holdout_number
      (strContains evaluation_schema "Stratified")
      random_state)
  else
    Except.error (.valueError
      ("The requested evaluation schema `" ++ evaluation_schema ++
        "` is not available."))

/-- The graph-engine primitives that
`AbstractNodeLabelPredictionModel.split_graph_following_evaluation_schema`
can invoke.  The node-label variant captures every keyword argument it
receives into `**holdouts_kwargs` and forwards them verbatim to the engine,
so the kwargs are modelled concretely as an association list from keyword
name to (integer) value. -/
inductive NodeEngineCall (G : Type) where
  | get_node_label_holdout_graphs
      (graph : G) (kwargs : List (String × ℤ)) (use_stratification : Bool) (random_state : ℤ)
  | get_node_label_kfold
      (graph : G) (kwargs : List (String × ℤ)) (k_index : ℕ) (use_stratification : Bool)
      (random_state : ℤ)
  deriving DecidableEq, Repr

/-- `AbstractNodeLabelPredictionModel.split_graph_following_evaluation_schema`.
Note the signature difference with the edge-label variant: this classmethod
takes no `number_of_holdouts` parameter, and its k-fold branch passes
`**holdouts_kwargs` to the engine without any explicit `k=` argument.
On an unrecognized schema name the source tries to raise a `ValueError`
listing the valid schemas, but formatting that message evaluates
`cls.get_available_evaluation_schemas()` — an instance method (declared with
a `self` parameter) accessed through the class, i.e. a plain function called
with zero arguments — so Python raises a `TypeError` while the message is
being built and the intended `ValueError` is never constructed. -/
def AbstractNodeLabelPredictionModel.split_graph_following_evaluation_schema
    (G : Type) (graph : G) (evaluation_schema : String)
    (random_state : ℤ) (holdout_number : ℕ)
    (holdouts_kwargs : List (String × ℤ)) :
    Except PyError (NodeEngineCall G) :=
  if evaluation_schema ∈ ["Stratified Monte Carlo", "Monte Carlo"] then
    Except.ok (.get_node_label_holdout_graphs graph holdouts_kwargs
      (strContains evaluation_schema "Stratified")
      (random_state + holdout_number))
  else if evaluation_schema ∈ ["Kfold", "Stratified Kfold"] then
    Except.ok (.get_node_label_kfold graph holdouts_kwargs holdout_number
      (strContains evaluation_schema "Stratified")
      random_state)
  else
    Except.error (.typeError
      "get_available_evaluation_schemas() missing 1 required positional argument: \x27self\x27")

/-- The `k=` keyword that the engine's `get_node_label_kfold` primitive
receives from a `NodeEngineCall`, if any: the node-label splitter passes no
explicit `k`, so it can only come from the forwarded kwargs. -/
def NodeEngineCall.kfoldKArgument {G : Type} : NodeEngineCall G → Option ℤ
  | .get_node_label_kfold _ kwargs _ _ _ => kwargs.lookup "k"
  | _ => none

example :
    AbstractEdgeLabelPredictionModel.split_graph_following_evaluation_schema
      Unit Unit () "Monte Carlo" 3 42 () 1
      = Except.ok (.get_edge_label_holdout_graphs () () false 43) := by rfl

example :
    AbstractEdgeLabelPredictionModel.split_graph_following_evaluation_schema
      Unit Unit () "Stratified Kfold" 5 42 () 2
      = Except.ok (.get_edge_label_kfold () 5 2 true 42) := by rfl

example :
    AbstractNodeLabelPredictionModel.split_graph_following_evaluation_schema
      Unit () "Kfold" 42 2 [("k", 5)]
      = Except.ok (.get_node_label_kfold () [("k", 5)] 2 false 42) := by rfl

/-! ## Edge-label `_evaluate` -/

/-- Graph attributes consumed by the edge-label `_evaluate`.  `L` is the
(opaque) type of the engine's label arrays; the two label accessors of the
engine are modelled as fields. -/
structure EdgeGraph (L : Type) where
  edges_number : ℕ
  one_hot_encoded_edge_types : L
  edge_type_ids : L
  deriving DecidableEq, Repr

/-- One dictionary appended to `performance` by the edge-label `_evaluate`:
the bookkeeping keys plus the merged outputs of `evaluate_predictions` and
`evaluate_prediction_probabilities` (`M` is their opaque output type). -/
structure EdgePerformanceRecord (M : Type) where
  evaluation_mode : String
  train_size : ℚ
  edges_number : ℕ
  prediction_metrics : M
  probability_metrics : M
  deriving DecidableEq, Repr

/-- The state and inherited methods of an `AbstractEdgeLabelPredictionModel`
instance that `_evaluate` consumes.  `predict`, `predict_proba` and the two
metric evaluators are inherited from `AbstractClassifierModel` (not among the
provided sources) and are therefore opaque function fields. -/
structure EdgeModel (L NF EF P Pr M : Type) where
  one_hot_encode_labels : Bool
  predict : EdgeGraph L → Option NF → Option EF → Except PyError P
  predict_proba : EdgeGraph L → Option NF → Option EF → Except PyError Pr
  evaluate_predictions : P → L → M
  evaluate_prediction_probabilities : Pr → L → M

/-- The body of the `for evaluation_mode, evaluation_graph in ...` loop of
`AbstractEdgeLabelPredictionModel._evaluate`, producing the record appended
to `performance` for one evaluation mode. -/
def AbstractEdgeLabelPredictionModel.evaluate_one_mode
    {L NF EF P Pr M : Type} (self : EdgeModel L NF EF P Pr M)
    (graph : EdgeGraph L)
    (node_features : Option NF) (edge_features : Option EF)
    (train_size : ℚ) (edges_number : ℕ)
    (mode_and_graph : String × EdgeGraph L) :
    Except PyError (EdgePerformanceRecord M) := do
  let evaluation_graph := mode_and_graph.2
  let predictions ← self.predict evaluation_graph node_features edge_features
  let prediction_probabilities ←
    self.predict_proba evaluation_graph node_features edge_features
  let labels :=
    if self.one_hot_encode_labels then
      graph.one_hot_encoded_edge_types
    else
      graph.edge_type_ids
  pure {
    evaluation_mode := mode_and_graph.1,
    train_size := train_size,
    edges_number := edges_number,
    prediction_metrics := self.evaluate_predictions predictions labels,
    probability_metrics :=
      self.evaluate_prediction_probabilities prediction_probabilities labels }

/-- `AbstractEdgeLabelPredictionModel._evaluate`. -/
def AbstractEdgeLabelPredictionModel._evaluate
    {L NF EF P Pr M : Type} (self : EdgeModel L NF EF P Pr M)
    (graph train test : EdgeGraph L)
    (node_features : Option NF) (edge_features : Option EF)
    (random_state : ℤ) :
    Except PyError (List (EdgePerformanceRecord M)) :=
  let _ := random_state
  let edges_number := graph.edges_number
  let train_size : ℚ := (train.edges_number : ℚ) / (graph.edges_number : ℚ)
  [("train", train), ("test", test)].mapM
    (AbstractEdgeLabelPredictionModel.evaluate_one_mode self graph
      node_features edge_features train_size edges_number)

/-! ## Node-label model -/

/-- Graph attributes consumed by the node-label model.  Engine label arrays
are concrete here because `_evaluate` masks them elementwise. -/
structure NodeGraph where
  node_types_number : ℕ
  has_multilabel_node_types : Bool
  known_node_types_number : ℕ
  one_hot_encoded_node_types : List (List Bool)
  boolean_node_type_ids : List Bool
  single_label_node_type_ids : List ℕ
  known_node_types_mask : List Bool
  node_type_names_counts : List (String × ℕ)
  deriving DecidableEq, Repr

/-- The label array chosen by `_evaluate` (one-hot matrix, boolean vector or
single-label class-id vector, depending on the task kind). -/
inductive NodeLabels where
  | one_hot (rows : List (List Bool))
  | boolean (ids : List Bool)
  | single_label (ids : List ℕ)
  deriving DecidableEq, Repr

/-- The discrete predictions derived from the probability matrix (the raw
probabilities for binary tasks, a `> 0.5` thresholding for multilabel tasks,
or a per-row argmax otherwise). -/
inductive NodePredictions where
  | probabilities (rows : List (List ℚ))
  | thresholded (rows : List (List Bool))
  | argmax_ids (ids : List ℕ)
  deriving DecidableEq, Repr

/-- numpy boolean-mask indexing `xs[mask]`: keep the entries whose mask bit
is true. -/
def booleanMask {α : Type} (mask : List Bool) (xs : List α) : List α :=
  ((xs.zip mask).filter (fun p => p.2)).map (fun p => p.1)

/-- numpy `argmax(axis=-1)` on one row: index of the first maximal entry. -/
def rowArgmax (row : List ℚ) : ℕ :=
  (List.range row.length).foldl
    (fun best i => if row.getD best 0 < row.getD i 0 then i else best) 0

/-- Boolean-mask indexing on a chosen label array. -/
def NodeLabels.maskSelect (mask : List Bool) : NodeLabels → NodeLabels
  | .one_hot rows => .one_hot (booleanMask mask rows)
  | .boolean ids => .boolean (booleanMask mask ids)
  | .single_label ids => .single_label (booleanMask mask ids)

/-- Boolean-mask indexing on the discrete predictions. -/
def NodePredictions.maskSelect (mask : List Bool) : NodePredictions → NodePredictions
  | .probabilities rows => .probabilities (booleanMask mask rows)
  | .thresholded rows => .thresholded (booleanMask mask rows)
  | .argmax_ids ids => .argmax_ids (booleanMask mask ids)

/-- Python truthiness of an `Optional[bool]` attribute (`None` is falsy). -/
def pyTruthy : Option Bool → Bool
  | none => false
  | some b => b

/-- The state and inherited methods of an `AbstractNodeLabelPredictionModel`
instance.  The `super_*` fields are the inherited
`AbstractClassifierModel` methods (not among the provided sources), opaque
here. -/
structure NodeModel (Support NF NTF EF M : Type) where
  _is_binary_prediction_task : Option Bool
  _is_multilabel_prediction_task : Option Bool
  super_predict : NodeGraph → Option Support → Option NF → Except PyError (List ℕ)
  super_predict_proba :
    NodeGraph → Option Support → Option NF → Except PyError (List (List ℚ))
  super_fit : NodeGraph → Option Support → Option NF → Except PyError Unit
  evaluate_predictions : NodeLabels → NodePredictions → M
  evaluate_prediction_probabilities : NodeLabels → List (List ℚ) → M

/-- One dictionary appended to `performance` by the node-label `_evaluate`. -/
structure NodePerformanceRecord (M : Type) where
  evaluation_mode : String
  train_size : ℚ
  known_nodes_number : ℕ
  prediction_metrics : M
  probability_metrics : M
  deriving DecidableEq, Repr

/-- `AbstractNodeLabelPredictionModel.predict`: rejects edge features and
node-type features before anything else happens, then delegates to the
inherited predict. -/
def AbstractNodeLabelPredictionModel.predict
    {Support NF NTF EF M : Type} (self : NodeModel Support NF NTF EF M)
    (graph : NodeGraph) (support : Option Support)
    (node_features : Option NF) (node_type_features : Option NTF)
    (edge_features : Option EF) :
    Except PyError (List ℕ) :=
  if edge_features.isSome then
    Except.error (.notImplementedError
      "Currently edge features are not supported in node-label prediction models.")
  else if node_type_features.isSome then
    Except.error (.notImplementedError
      ("Support for node type features is not currently available for any " ++
        "of the node-label prediction models."))
  else
    self.super_predict graph support node_features

/-- `AbstractNodeLabelPredictionModel.predict_proba`: same guards as
`predict`, then delegates to the inherited predict_proba. -/
def AbstractNodeLabelPredictionModel.predict_proba
    {Support NF NTF EF M : Type} (self : NodeModel Support NF NTF EF M)
    (graph : NodeGraph) (support : Option Support)
    (node_features : Option NF) (node_type_features : Option NTF)
    (edge_features : Option EF) :
    Except PyError (List (List ℚ)) :=
  if edge_features.isSome then
    Except.error (.notImplementedError
      "Currently edge features are not supported in node-label prediction models.")
  else if node_type_features.isSome then
    Except.error (.notImplementedError
      ("Support for node type features is not currently available for any " ++
        "of the node-label prediction models."))
  else
    self.super_predict_proba graph support node_features

/-- `AbstractNodeLabelPredictionModel.fit`: the unsupported-feature guards
come first; only afterwards are the task-kind flags derived from the graph
and the inherited fit invoked.  (`max(node_type_counts.items(), ...)` on an
empty dict raises a `ValueError`; the class-unbalance check otherwise only
emits a warning, which does not affect the returned state.) -/
def AbstractNodeLabelPredictionModel.fit
    {Support NF NTF EF M : Type} (self : NodeModel Support NF NTF EF M)
    (graph : NodeGraph) (support : Option Support)
    (node_features : Option NF) (node_type_features : Option NTF)
    (edge_features : Option EF) :
    Except PyError (NodeModel Support NF NTF EF M) :=
  if edge_features.isSome then
    Except.error (.notImplementedError
      "Currently edge features are not supported in node-label prediction models.")
  else if node_type_features.isSome then
    Except.error (.notImplementedError
      ("Support for node type features is not currently available for any " ++
        "of the node-label prediction models."))
  else
    let self1 := { self with
      _is_binary_prediction_task := some (decide (graph.node_types_number = 2)),
      _is_multilabel_prediction_task := some graph.has_multilabel_node_types }
    if graph.node_type_names_counts.isEmpty then
      Except.error (.valueError "max() arg is an empty sequence")
    else
      match self.super_fit graph support node_features with
      | .error e => Except.error e
      | .ok _ => Except.ok self1

/-- The body of the `for evaluation_mode, evaluation_graph in ...` loop of
`AbstractNodeLabelPredictionModel._evaluate`, producing the record appended
to `performance` for one evaluation mode. -/
def AbstractNodeLabelPredictionModel.evaluate_one_mode
    {Support NF NTF EF M : Type} (self : NodeModel Support NF NTF EF M)
    (support : Option Support)
    (node_features : Option NF) (node_type_features : Option NTF)
    (edge_features : Option EF)
    (train_size : ℚ) (labels : NodeLabels)
    (mode_and_graph : String × NodeGraph) :
    Except PyError (NodePerformanceRecord M) := do
  let evaluation_graph := mode_and_graph.2
  let prediction_probabilities ← AbstractNodeLabelPredictionModel.predict_proba
    self evaluation_graph support node_features node_type_features edge_features
  let predictions : NodePredictions :=
    if pyTruthy self._is_binary_prediction_task then
      .probabilities prediction_probabilities
    else if pyTruthy self._is_multilabel_prediction_task then
      .thresholded (prediction_probabilities.map
        (fun row => row.map (fun p => decide ((1 : ℚ)/2 < p))))
    else
      .argmax_ids (prediction_probabilities.map rowArgmax)
  let mask := evaluation_graph.known_node_types_mask
  let masked_probabilities := booleanMask mask prediction_probabilities
  let masked_predictions := predictions.maskSelect mask
  let labels_subset := labels.maskSelect mask
  pure {
    evaluation_mode := mode_and_graph.1,
    train_size := train_size,
    known_nodes_number := evaluation_graph.known_node_types_number,
    prediction_metrics := self.evaluate_predictions labels_subset masked_predictions,
    probability_metrics :=
      self.evaluate_prediction_probabilities labels_subset masked_probabilities }

/-- `AbstractNodeLabelPredictionModel._evaluate`. -/
def AbstractNodeLabelPredictionModel._evaluate
    {Support NF NTF EF M : Type} (self : NodeModel Support NF NTF EF M)
    (graph train test : NodeGraph) (support : Option Support)
    (node_features : Option NF) (node_type_features : Option NTF)
    (edge_features : Option EF) :
    Except PyError (List (NodePerformanceRecord M)) :=
  let train_size : ℚ :=
    (train.known_node_types_number : ℚ) / (graph.known_node_types_number : ℚ)
  let labels : NodeLabels :=
    if pyTruthy self._is_multilabel_prediction_task then
      .one_hot graph.one_hot_encoded_node_types
    else if pyTruthy self._is_binary_prediction_task then
      .boolean graph.boolean_node_type_ids
    else
      .single_label graph.single_label_node_type_ids
  [("train", train), ("test", test)].mapM
    (AbstractNodeLabelPredictionModel.evaluate_one_mode self support
      node_features node_type_features edge_features train_size labels)

/-! ## Caller-facing `evaluate` entry point -/

/-- The arguments of `AbstractEdgeLabelPredictionModel.evaluate`, forwarded
verbatim to the parent class.  `G` is the graph type, `K` the holdout-kwargs
mapping, `NF`/`EF` the feature-source types. -/
structure EvaluateArgs (G K NF EF : Type) where
  graph : G
  evaluation_schema : String
  holdouts_kwargs : K
  node_features : Option NF
  edge_features : Option EF
  subgraph_of_interest : Option G
  number_of_holdouts : ℕ
  random_state : ℤ
  verbose : Bool
  sample_only_edges_with_heterogeneous_node_types : Bool
  unbalance_rates : List ℚ

/-- `Modelled from the spec:` `AbstractClassifierModel.evaluate` is defined in
the `embiggen/utils` module, which is not among the provided sources.  Per the
spec it runs `holdout_number` from `0` to `number_of_holdouts - 1` in order,
each holdout contributing the records `_evaluate` produced, and returns the
resulting table (rows = per-holdout per-mode records).  The per-holdout
record computation is abstracted as `holdout_records`. -/
def AbstractClassifierModel.evaluate
    {G K NF EF R : Type} (holdout_records : ℕ → List R)
    (args : EvaluateArgs G K NF EF) : List R :=
  (List.range args.number_of_holdouts).flatMap holdout_records

/-- `AbstractEdgeLabelPredictionModel.evaluate`: the Python method's body is a
bare `super().evaluate(...)` call whose value is never returned (there is no
`return` statement), so the call always evaluates to Python's `None`
(modelled as `none`), discarding the table the parent class produced. -/
def AbstractEdgeLabelPredictionModel.evaluate
    {G K NF EF R : Type} (holdout_records : ℕ → List R)
    (args : EvaluateArgs G K NF EF) : Option (List R) :=
  let _result := AbstractClassifierModel.evaluate holdout_records args
  none

/-! ## DAGResnik similarities -/

/-- A similarity value produced by the engine's Resnik model: numpy floats,
of which the claims only distinguish NaN from ordinary numbers. -/
inductive PFloat where
  | nan : PFloat
  | num (q : ℚ) : PFloat
  deriving DecidableEq, Repr

/-- `np.isnan` on one value. -/
def PFloat.isNaN : PFloat → Bool
  | .nan => true
  | .num _ => false

/-- Graphs handed to `DAGResnik`: either a caller-supplied graph or one of
the engine's bipartite/clique builders applied to another graph, recorded
with the exact arguments the wrapper passes. -/
inductive RGraph (G : Type) where
  | base (g : G)
  | build_bipartite_graph_from_edge_node_ids
      (g : RGraph G) (source_node_ids destination_node_ids : List ℕ) (directed : Bool)
  | build_bipartite_graph_from_edge_node_names
      (g : RGraph G) (source_node_names destination_node_names : List String) (directed : Bool)
  | build_bipartite_graph_from_edge_node_prefixes
      (g : RGraph G) (source_node_prefixes destination_node_prefixes : List String) (directed : Bool)
  | build_bipartite_graph_from_edge_node_types
      (g : RGraph G) (source_node_types destination_node_types : List String) (directed : Bool)
  | build_clique_graph_from_node_ids (g : RGraph G) (node_ids : List ℕ) (directed : Bool)
  | build_clique_graph_from_node_names (g : RGraph G) (node_names : List String) (directed : Bool)
  | build_clique_graph_from_node_prefixes (g : RGraph G) (node_prefixes : List String) (directed : Bool)
  | build_clique_graph_from_node_types (g : RGraph G) (node_types : List String) (directed : Bool)
  deriving DecidableEq, Repr

/-- The opaque engine calls `DAGResnik` makes: the fitted native model's
similarity computation and the two node-id accessors used to build the
returned dataframe. -/
structure ResnikEngine (G : Type) where
  model_similarities : RGraph G → List PFloat
  get_directed_source_node_ids : RGraph G → List ℕ
  get_directed_destination_node_ids : RGraph G → List ℕ

/-- The value returned by `DAGResnik.get_similarities_from_graph`: a plain
numpy array of predictions, or a dataframe with sources/destinations. -/
inductive ResnikResult where
  | array (predictions : List PFloat)
  | dataframe (predictions : List PFloat) (sources destinations : List ℕ)
  deriving DecidableEq, Repr

/-- `DAGResnik.get_similarities_from_graph`. -/
def DAGResnik.get_similarities_from_graph
    {G : Type} (self : ResnikEngine G) (graph : RGraph G)
    (return_predictions_dataframe : Bool) :
    Except PyError ResnikResult :=
  let predictions := self.model_similarities graph
  if predictions.any PFloat.isNaN then
    Except.error (.valueError "There are NaN values in the predicted probabilities!")
  else if return_predictions_dataframe then
    Except.ok (.dataframe predictions
      (self.get_directed_source_node_ids graph)
      (self.get_directed_destination_node_ids graph))
  else
    Except.ok (.array predictions)

/-- `DAGResnik.get_similarities_from_bipartite_graph_from_edge_node_ids`. -/
def DAGResnik.get_similarities_from_bipartite_graph_from_edge_node_ids
    {G : Type} (self : ResnikEngine G) (graph : RGraph G)
    (source_node_ids destination_node_ids : List ℕ)
    (return_predictions_dataframe : Bool) : Except PyError ResnikResult :=
  DAGResnik.get_similarities_from_graph self
    (.build_bipartite_graph_from_edge_node_ids graph source_node_ids destination_node_ids true)
    return_predictions_dataframe

/-- `DAGResnik.get_similarities_from_bipartite_graph_from_edge_node_names`. -/
def DAGResnik.get_similarities_from_bipartite_graph_from_edge_node_names
    {G : Type} (self : ResnikEngine G) (graph : RGraph G)
    (source_node_names destination_node_names : List String)
    (return_predictions_dataframe : Bool) : Except PyError ResnikResult :=
  DAGResnik.get_similarities_from_graph self
    (.build_bipartite_graph_from_edge_node_names graph source_node_names destination_node_names true)
    return_predictions_dataframe

/-- `DAGResnik.get_similarities_from_bipartite_graph_from_edge_node_prefixes`. -/
def DAGResnik.get_similarities_from_bipartite_graph_from_edge_node_prefixes
    {G : Type} (self : ResnikEngine G) (graph : RGraph G)
    (source_node_prefixes destination_node_prefixes : List String)
    (return_predictions_dataframe : Bool) : Except PyError ResnikResult :=
  DAGResnik.get_similarities_from_graph self
    (.build_bipartite_graph_from_edge_node_prefixes graph source_node_prefixes destination_node_prefixes true)
    return_predictions_dataframe

/-- `DAGResnik.get_similarities_from_bipartite_graph_from_edge_node_types`. -/
def DAGResnik.get_similarities_from_bipartite_graph_from_edge_node_types
    {G : Type} (self : ResnikEngine G) (graph : RGraph G)
    (source_node_types destination_node_types : List String)
    (return_predictions_dataframe : Bool) : Except PyError ResnikResult :=
  DAGResnik.get_similarities_from_graph self
    (.build_bipartite_graph_from_edge_node_types graph source_node_types destination_node_types true)
    return_predictions_dataframe

/-- `DAGResnik.get_similarities_from_clique_graph_from_node_ids`. -/
def DAGResnik.get_similarities_from_clique_graph_from_node_ids
    {G : Type} (self : ResnikEngine G) (graph : RGraph G)
    (node_ids : List ℕ)
    (return_predictions_dataframe : Bool) : Except PyError ResnikResult :=
  DAGResnik.get_similarities_from_graph self
    (.build_clique_graph_from_node_ids graph node_ids true)
    return_predictions_dataframe

/-- `DAGResnik.get_similarities_from_clique_graph_from_node_names`. -/
def DAGResnik.get_similarities_from_clique_graph_from_node_names
    {G : Type} (self : ResnikEngine G) (graph : RGraph G)
    (node_names : List String)
    (return_predictions_dataframe : Bool) : Except PyError ResnikResult :=
  DAGResnik.get_similarities_from_graph self
    (.build_clique_graph_from_node_names graph node_names true)
    return_predictions_dataframe

/-- `DAGResnik.get_similarities_from_clique_graph_from_node_prefixes`. -/
def DAGResnik.get_similarities_from_clique_graph_from_node_prefixes
    {G : Type} (self : ResnikEngine G) (graph : RGraph G)
    (node_prefixes : List String)
    (return_predictions_dataframe : Bool) : Except PyError ResnikResult :=
  DAGResnik.get_similarities_from_graph self
    (.build_clique_graph_from_node_prefixes graph node_prefixes true)
    return_predictions_dataframe

/-- `DAGResnik.get_similarities_from_clique_graph_from_node_types`. -/
def DAGResnik.get_similarities_from_clique_graph_from_node_types
    {G : Type} (self : ResnikEngine G) (graph : RGraph G)
    (node_types : List String)
    (return_predictions_dataframe : Bool) : Except PyError ResnikResult :=
  DAGResnik.get_similarities_from_graph self
    (.build_clique_graph_from_node_types graph node_types true)
    return_predictions_dataframe

/-! ## Helper definitions and lemmas for the theorems -/

/-- The message of the `ValueError` raised by the edge-label splitter on an
unrecognized schema name. -/
def edge_unavailable_schema_message (s : String) : String :=
  "The requested evaluation schema `" ++ s ++ "` is not available."

theorem strContains_self_of_affixes (x y s : String) :
    strContains (x ++ s ++ y) s = true := by
  simp only [strContains, decide_eq_true_eq]
  exact ⟨x.data, y.data, by simp [String.data_append]⟩

theorem mapM_pair_ok {ε α β : Type} (f : α → Except ε β) (x y : α) (res : List β)
    (h : [x, y].mapM f = Except.ok res) :
    ∃ a b, f x = Except.ok a ∧ f y = Except.ok b ∧ res = [a, b] := by
  cases hx : f x with
  | error e => simp [List.mapM, List.mapM.loop, hx, Bind.bind, Except.bind] at h
  | ok a =>
    cases hy : f y with
    | error e => simp [List.mapM, List.mapM.loop, hx, hy, Bind.bind, Except.bind] at h
    | ok b =>
      refine ⟨a, b, rfl, rfl, ?_⟩
      simp [List.mapM, List.mapM.loop, hx, hy, Bind.bind, Except.bind, pure, Except.pure] at h
      exact h.symm

/-! ## C1: k-fold split arguments -/

/-- The k-fold claim read literally over both task models: for Kfold-family
schema names the engine k-fold primitive is invoked with
`k = number_of_holdouts`, `k_index = holdout_number` and the unmodified
`random_state`.  For the node-label model an explicit `k` can only reach the
engine through the forwarded kwargs, so the literal reading requires the
k-fold engine call to carry `k = number_of_holdouts`. -/
def kfoldClaimAsStated : Prop :=
  (∀ (G K : Type) (g : G) (kw : K) (nh : ℕ) (rs : ℤ) (hn : ℕ),
    AbstractEdgeLabelPredictionModel.split_graph_following_evaluation_schema
      G K g "Kfold" nh rs kw hn
      = Except.ok (.get_edge_label_kfold g nh hn false rs) ∧
    AbstractEdgeLabelPredictionModel.split_graph_following_evaluation_schema
      G K g "Stratified Kfold" nh rs kw hn
      = Except.ok (.get_edge_label_kfold g nh hn true rs)) ∧
  (∀ (G : Type) (gn : G) (nkw : List (String × ℤ)) (nh : ℕ) (rs : ℤ) (hn : ℕ),
    ∃ c, AbstractNodeLabelPredictionModel.split_graph_following_evaluation_schema
        G gn "Kfold" rs hn nkw = Except.ok c ∧
      c.kfoldKArgument = some (nh : ℤ))

/-- C1 counterexample: the literal claim fails on the node-label model.  At
schema `"Kfold"`, empty holdout kwargs, `random_state = 42` and
`holdout_number = 0`, the engine k-fold call carries no `k` argument at all,
so it cannot equal any `number_of_holdouts`. -/
theorem C1_kfold_claim_negation : ¬ kfoldClaimAsStated := by
  intro h
  obtain ⟨-, h2⟩ := h
  obtain ⟨c, hc, hk⟩ := h2 Unit () [] 3 42 0
  have hc0 : AbstractNodeLabelPredictionModel.split_graph_following_evaluation_schema
      Unit () "Kfold" 42 0 []
      = Except.ok (NodeEngineCall.get_node_label_kfold () [] 0 false 42) := rfl
  rw [hc0] at hc
  injection hc with hcc
  subst hcc
  exact absurd hk (by decide)

/-- C1 (amended): for the edge-label model every Kfold-family schema invokes
the engine k-fold primitive with `k = number_of_holdouts`,
`k_index = holdout_number` and the unmodified `random_state` (the same seed
for every holdout index); for the node-label model the k-fold primitive
receives `k_index = holdout_number` and the unmodified `random_state`, with
the holdout kwargs forwarded verbatim — a `k` reaches the engine only through
those kwargs, the method having no `number_of_holdouts` parameter. -/
theorem C1_kfold_split_arguments
    (G K : Type) (g : G) (kw : K) (gn : G) (nkw : List (String × ℤ))
    (nh : ℕ) (rs : ℤ) (hn : ℕ) :
    AbstractEdgeLabelPredictionModel.split_graph_following_evaluation_schema
      G K g "Kfold" nh rs kw hn
      = Except.ok (.get_edge_label_kfold g nh hn false rs) ∧
    AbstractEdgeLabelPredictionModel.split_graph_following_evaluation_schema
      G K g "Stratified Kfold" nh rs kw hn
      = Except.ok (.get_edge_label_kfold g nh hn true rs) ∧
    AbstractNodeLabelPredictionModel.split_graph_following_evaluation_schema
      G gn "Kfold" rs hn nkw
      = Except.ok (.get_node_label_kfold gn nkw hn false rs) ∧
    AbstractNodeLabelPredictionModel.split_graph_following_evaluation_schema
      G gn "Stratified Kfold" rs hn nkw
      = Except.ok (.get_node_label_kfold gn nkw hn true rs) :=
  ⟨rfl, rfl, rfl, rfl⟩

/-! ## C2: Monte-Carlo split arguments -/

/-- C2: for both Monte-Carlo-family schema names and both task models, the
engine random-holdout primitive is invoked with seed
`random_state + holdout_number` and the holdout kwargs forwarded unmodified;
in particular with `random_state = 42` the holdouts `0`, `1`, `2` use seeds
`42`, `43`, `44`. -/
theorem C2_monte_carlo_split_arguments
    (G K : Type) (g : G) (kw : K) (gn : G) (nkw : List (String × ℤ))
    (nh : ℕ) (rs : ℤ) (hn : ℕ) :
    AbstractEdgeLabelPredictionModel.split_graph_following_evaluation_schema
      G K g "Monte Carlo" nh rs kw hn
      = Except.ok (.get_edge_label_holdout_graphs g kw false (rs + hn)) ∧
    AbstractEdgeLabelPredictionModel.split_graph_following_evaluation_schema
      G K g "Stratified Monte Carlo" nh rs kw hn
      = Except.ok (.get_edge_label_holdout_graphs g kw true (rs + hn)) ∧
    AbstractNodeLabelPredictionModel.split_graph_following_evaluation_schema
      G gn "Monte Carlo" rs hn nkw
      = Except.ok (.get_node_label_holdout_graphs gn nkw false (rs + hn)) ∧
    AbstractNodeLabelPredictionModel.split_graph_following_evaluation_schema
      G gn "Stratified Monte Carlo" rs hn nkw
      = Except.ok (.get_node_label_holdout_graphs gn nkw true (rs + hn)) ∧
    (List.range 3).map (fun i =>
      AbstractEdgeLabelPredictionModel.split_graph_following_evaluation_schema
        G K g "Monte Carlo" 3 42 kw i)
      = [Except.ok (.get_edge_label_holdout_graphs g kw false 42),
         Except.ok (.get_edge_label_holdout_graphs g kw false 43),
         Except.ok (.get_edge_label_holdout_graphs g kw false 44)] :=
  ⟨rfl, rfl, rfl, rfl, rfl⟩

/-! ## C3: schema resolution -/

set_option maxRecDepth 8192 in
/-- C3 counterexample: the claim requires the error raised on an unrecognized
schema name to include the list of valid schema names.  The edge-label
model's message names only the offending schema — none of the four valid
names occurs in it — and the node-label model does not even reach its
`ValueError`: formatting its message calls the instance method
`get_available_evaluation_schemas` through the class, so a `TypeError` is
raised whose message names neither the offending schema nor any valid
name. -/
theorem C3_edge_error_lacks_valid_names :
    AbstractEdgeLabelPredictionModel.split_graph_following_evaluation_schema
      Unit Unit () "Foo" 10 42 () 0
      = Except.error (.valueError "The requested evaluation schema `Foo` is not available.") ∧
    strContains "The requested evaluation schema `Foo` is not available."
      "Monte Carlo" = false ∧
    strContains "The requested evaluation schema `Foo` is not available."
      "Stratified Monte Carlo" = false ∧
    strContains "The requested evaluation schema `Foo` is not available."
      "Kfold" = false ∧
    strContains "The requested evaluation schema `Foo` is not available."
      "Stratified Kfold" = false ∧
    AbstractNodeLabelPredictionModel.split_graph_following_evaluation_schema
      Unit () "Foo" 42 0 []
      = Except.error (.typeError
          "get_available_evaluation_schemas() missing 1 required positional argument: \x27self\x27") ∧
    strContains
      "get_available_evaluation_schemas() missing 1 required positional argument: \x27self\x27"
      "Foo" = false ∧
    strContains
      "get_available_evaluation_schemas() missing 1 required positional argument: \x27self\x27"
      "Monte Carlo" = false ∧
    strContains
      "get_available_evaluation_schemas() missing 1 required positional argument: \x27self\x27"
      "Kfold" = false :=
  ⟨rfl, by decide, by decide, by decide, by decide, rfl, by decide, by decide, by decide⟩

/-- C3 (amended): on a schema name that is none of the four recognized
values, the edge-label splitter raises a `ValueError` whose message names the
offending schema but carries no list of valid names, while the node-label
splitter raises a `TypeError` (its error branch calls the instance method
`get_available_evaluation_schemas` through the class while formatting the
intended message, which is therefore never produced).  On each of the four
recognized values both splitters return a split without raising. -/
theorem C3_schema_resolution
    (G K : Type) (g : G) (kw : K) (gn : G) (nkw : List (String × ℤ))
    (nh : ℕ) (rs : ℤ) (hn : ℕ) (s : String)
    (hs : s ∉ ["Monte Carlo", "Stratified Monte Carlo", "Kfold", "Stratified Kfold"]) :
    (AbstractEdgeLabelPredictionModel.split_graph_following_evaluation_schema
        G K g s nh rs kw hn
      = Except.error (.valueError (edge_unavailable_schema_message s)) ∧
      strContains (edge_unavailable_schema_message s) s = true) ∧
    AbstractNodeLabelPredictionModel.split_graph_following_evaluation_schema
        G gn s rs hn nkw
      = Except.error (.typeError
          "get_available_evaluation_schemas() missing 1 required positional argument: \x27self\x27") ∧
    (["Monte Carlo", "Stratified Monte Carlo", "Kfold", "Stratified Kfold"]).all
      (fun v => (AbstractEdgeLabelPredictionModel.split_graph_following_evaluation_schema
          G K g v nh rs kw hn).isOk) = true ∧
    (["Monte Carlo", "Stratified Monte Carlo", "Kfold", "Stratified Kfold"]).all
      (fun v => (AbstractNodeLabelPredictionModel.split_graph_following_evaluation_schema
          G gn v rs hn nkw).isOk) = true := by
  simp only [List.mem_cons, List.not_mem_nil, or_false, not_or] at hs
  obtain ⟨hMC, hSMC, hK, hSK⟩ := hs
  have hA : ¬ (s ∈ ["Stratified Monte Carlo", "Monte Carlo"]) := by simp [hMC, hSMC]
  have hB : ¬ (s ∈ ["Kfold", "Stratified Kfold"]) := by simp [hK, hSK]
  refine ⟨⟨?_, ?_⟩, ?_, ?_, ?_⟩
  · simp only [AbstractEdgeLabelPredictionModel.split_graph_following_evaluation_schema,
      if_neg hA, if_neg hB]
    rfl
  · exact strContains_self_of_affixes _ _ s
  · simp only [AbstractNodeLabelPredictionModel.split_graph_following_evaluation_schema,
      if_neg hA, if_neg hB]
  · rfl
  · rfl

/-- C3 witness: the hypotheses of `C3_schema_resolution` are satisfiable, at
schema name `"Foo"`. -/
theorem C3_schema_resolution_witness :
    AbstractEdgeLabelPredictionModel.split_graph_following_evaluation_schema
      Unit Unit () "Foo" 10 42 () 0
      = Except.error (.valueError "The requested evaluation schema `Foo` is not available.") ∧
    AbstractNodeLabelPredictionModel.split_graph_following_evaluation_schema
      Unit () "Foo" 42 0 []
      = Except.error (.typeError
          "get_available_evaluation_schemas() missing 1 required positional argument: \x27self\x27") :=
  ⟨(C3_schema_resolution Unit Unit () () () [] 10 42 0 "Foo" (by decide)).1.1,
   (C3_schema_resolution Unit Unit () () () [] 10 42 0 "Foo" (by decide)).2.1⟩

/-! ## C4: available evaluation schemas -/

/-- C4 (code bug): the edge-label model's advertised schema list has only
three entries — the missing comma in the source concatenates
`"Stratified Kfold"` and `"Kfold"` into `"Stratified KfoldKfold"` — so it
omits both Kfold-family names the splitter accepts and advertises a name the
splitter rejects; the node-label model's list has the four recognized
names. -/
theorem C4_available_schemas :
    AbstractEdgeLabelPredictionModel.get_available_evaluation_schemas
      = ["Stratified Monte Carlo", "Monte Carlo", "Stratified KfoldKfold"] ∧
    AbstractEdgeLabelPredictionModel.get_available_evaluation_schemas.length = 3 ∧
    "Kfold" ∉ AbstractEdgeLabelPredictionModel.get_available_evaluation_schemas ∧
    "Stratified Kfold" ∉ AbstractEdgeLabelPredictionModel.get_available_evaluation_schemas ∧
    (AbstractEdgeLabelPredictionModel.split_graph_following_evaluation_schema
        Unit Unit () "Stratified KfoldKfold" 10 42 () 0).isOk = false ∧
    (AbstractEdgeLabelPredictionModel.split_graph_following_evaluation_schema
        Unit Unit () "Kfold" 10 42 () 0).isOk = true ∧
    (AbstractEdgeLabelPredictionModel.split_graph_following_evaluation_schema
        Unit Unit () "Stratified Kfold" 10 42 () 0).isOk = true ∧
    AbstractNodeLabelPredictionModel.get_available_evaluation_schemas
      = ["Stratified Monte Carlo", "Monte Carlo", "Stratified Kfold", "Kfold"] :=
  ⟨rfl, rfl, by decide, by decide, by decide, by decide, by decide, rfl⟩

/-! ## Inversion lemmas for the per-mode record computation -/

theorem edge_evaluate_one_mode_fields
    {L NF EF P Pr M : Type} (self : EdgeModel L NF EF P Pr M)
    (graph : EdgeGraph L) (nf : Option NF) (ef : Option EF)
    (ts : ℚ) (en : ℕ) (m : String) (g : EdgeGraph L) (r : EdgePerformanceRecord M)
    (h : AbstractEdgeLabelPredictionModel.evaluate_one_mode self graph nf ef ts en (m, g)
      = Except.ok r) :
    r.evaluation_mode = m ∧ r.train_size = ts ∧ r.edges_number = en := by
  unfold AbstractEdgeLabelPredictionModel.evaluate_one_mode at h
  dsimp only at h
  cases hp : self.predict g nf ef with
  | error e => rw [hp] at h; simp [Bind.bind, Except.bind] at h
  | ok p =>
    cases hpr : self.predict_proba g nf ef with
    | error e => rw [hp, hpr] at h; simp [Bind.bind, Except.bind] at h
    | ok pr =>
      rw [hp, hpr] at h
      simp only [Bind.bind, Except.bind, pure, Except.pure, Except.ok.injEq] at h
      subst h
      exact ⟨rfl, rfl, rfl⟩

theorem node_evaluate_one_mode_fields
    {Support NF NTF EF M : Type} (self : NodeModel Support NF NTF EF M)
    (support : Option Support) (nf : Option NF) (ntf : Option NTF) (ef : Option EF)
    (ts : ℚ) (labels : NodeLabels) (m : String) (g : NodeGraph)
    (r : NodePerformanceRecord M)
    (h : AbstractNodeLabelPredictionModel.evaluate_one_mode self support nf ntf ef
        ts labels (m, g) = Except.ok r) :
    r.evaluation_mode = m ∧ r.train_size = ts := by
  unfold AbstractNodeLabelPredictionModel.evaluate_one_mode at h
  dsimp only at h
  cases hp : AbstractNodeLabelPredictionModel.predict_proba self g support nf ntf ef with
  | error e => rw [hp] at h; simp [Bind.bind, Except.bind] at h
  | ok probs =>
    rw [hp] at h
    simp only [Bind.bind, Except.bind, pure, Except.pure, Except.ok.injEq] at h
    subst h
    exact ⟨rfl, rfl⟩

theorem length_flatMap_of_two {R : Type} (f : ℕ → List R) (n : ℕ)
    (h : ∀ i, (f i).length = 2) : ((List.range n).flatMap f).length = 2 * n := by
  rw [List.length_flatMap]
  have hmap : List.map (List.length ∘ f) (List.range n)
      = List.map (fun _ => 2) (List.range n) :=
    List.map_congr_left (fun i _ => h i)
  rw [hmap]
  simp [Nat.mul_comm]

/-! ## C5: two records per holdout -/

/-- C5: whenever `_evaluate` returns normally (for either task model) the
returned list holds exactly two records, the first tagged `"train"` and the
second `"test"`; consequently the spec-modelled aggregation over
`number_of_holdouts` holdouts yields exactly `2 * number_of_holdouts`
records. -/
theorem C5_two_records_per_holdout
    {L NF EF P Pr M Support NTF G K : Type}
    (self : EdgeModel L NF EF P Pr M) (graph train test : EdgeGraph L)
    (nf : Option NF) (ef : Option EF) (rs : ℤ)
    (recs : List (EdgePerformanceRecord M))
    (h : AbstractEdgeLabelPredictionModel._evaluate self graph train test nf ef rs
      = Except.ok recs)
    (nself : NodeModel Support NF NTF EF M) (ngraph ntrain ntest : NodeGraph)
    (support : Option Support) (ntf : Option NTF)
    (nrecs : List (NodePerformanceRecord M))
    (hnode : AbstractNodeLabelPredictionModel._evaluate nself ngraph ntrain ntest
        support nf ntf ef = Except.ok nrecs)
    (holdout_records : ℕ → List (EdgePerformanceRecord M))
    (args : EvaluateArgs G K NF EF)
    (hper : ∀ i, (holdout_records i).length = 2) :
    recs.length = 2 ∧
    recs.map (fun r => r.evaluation_mode) = ["train", "test"] ∧
    nrecs.length = 2 ∧
    nrecs.map (fun r => r.evaluation_mode) = ["train", "test"] ∧
    (AbstractClassifierModel.evaluate holdout_records args).length
      = 2 * args.number_of_holdouts := by
  unfold AbstractEdgeLabelPredictionModel._evaluate at h
  obtain ⟨r1, r2, h1, h2, hr⟩ := mapM_pair_ok _ _ _ _ h
  obtain ⟨hm1, -, -⟩ := edge_evaluate_one_mode_fields _ _ _ _ _ _ _ _ _ h1
  obtain ⟨hm2, -, -⟩ := edge_evaluate_one_mode_fields _ _ _ _ _ _ _ _ _ h2
  unfold AbstractNodeLabelPredictionModel._evaluate at hnode
  obtain ⟨n1, n2, hn1, hn2, hnr⟩ := mapM_pair_ok _ _ _ _ hnode
  obtain ⟨hnm1, -⟩ := node_evaluate_one_mode_fields _ _ _ _ _ _ _ _ _ _ hn1
  obtain ⟨hnm2, -⟩ := node_evaluate_one_mode_fields _ _ _ _ _ _ _ _ _ _ hn2
  subst hr hnr
  refine ⟨rfl, ?_, rfl, ?_, ?_⟩
  · simp [hm1, hm2]
  · simp [hnm1, hnm2]
  · exact length_flatMap_of_two holdout_records args.number_of_holdouts hper

/-! ## C6: train_size computed once per holdout -/

/-- C6: in a normally returning `_evaluate` call both the train and the test
record carry the same `train_size`, namely the task-dependent labeled
quantity of the train graph over that of the full graph (edge count for the
edge-label task, known-node-type count for the node-label task). -/
theorem C6_train_size_once_per_holdout
    {L NF EF P Pr M Support NTF : Type}
    (self : EdgeModel L NF EF P Pr M) (graph train test : EdgeGraph L)
    (nf : Option NF) (ef : Option EF) (rs : ℤ)
    (recs : List (EdgePerformanceRecord M))
    (h : AbstractEdgeLabelPredictionModel._evaluate self graph train test nf ef rs
      = Except.ok recs)
    (nself : NodeModel Support NF NTF EF M) (ngraph ntrain ntest : NodeGraph)
    (support : Option Support) (ntf : Option NTF)
    (nrecs : List (NodePerformanceRecord M))
    (hnode : AbstractNodeLabelPredictionModel._evaluate nself ngraph ntrain ntest
        support nf ntf ef = Except.ok nrecs) :
    recs.map (fun r => r.train_size)
      = [(train.edges_number : ℚ) / (graph.edges_number : ℚ),
         (train.edges_number : ℚ) / (graph.edges_number : ℚ)] ∧
    nrecs.map (fun r => r.train_size)
      = [(ntrain.known_node_types_number : ℚ) / (ngraph.known_node_types_number : ℚ),
         (ntrain.known_node_types_number : ℚ) / (ngraph.known_node_types_number : ℚ)] := by
  unfold AbstractEdgeLabelPredictionModel._evaluate at h
  obtain ⟨r1, r2, h1, h2, hr⟩ := mapM_pair_ok _ _ _ _ h
  obtain ⟨-, ht1, -⟩ := edge_evaluate_one_mode_fields _ _ _ _ _ _ _ _ _ h1
  obtain ⟨-, ht2, -⟩ := edge_evaluate_one_mode_fields _ _ _ _ _ _ _ _ _ h2
  unfold AbstractNodeLabelPredictionModel._evaluate at hnode
  obtain ⟨n1, n2, hn1, hn2, hnr⟩ := mapM_pair_ok _ _ _ _ hnode
  obtain ⟨-, hts1⟩ := node_evaluate_one_mode_fields _ _ _ _ _ _ _ _ _ _ hn1
  obtain ⟨-, hts2⟩ := node_evaluate_one_mode_fields _ _ _ _ _ _ _ _ _ _ hn2
  subst hr hnr
  constructor
  · simp [ht1, ht2]
  · simp [hts1, hts2]

/-! ## C7: edge features rejected by the node-label model -/

/-- C7: supplying edge features to the node-label model's `fit`, `predict` or
`predict_proba` raises a `NotImplementedError` and the outcome is completely
independent of the graph, the remaining inputs and the behaviour of the
wrapped engine/model (the guard fires before any engine or model call, so no
partial work is done and no state changes). -/
theorem C7_edge_features_rejected
    {Support NF NTF EF M : Type}
    (self self2 : NodeModel Support NF NTF EF M) (graph graph2 : NodeGraph)
    (support support2 : Option Support) (nf nf2 : Option NF)
    (ntf ntf2 : Option NTF) (ef : EF) :
    AbstractNodeLabelPredictionModel.predict self graph support nf ntf (some ef)
      = Except.error (.notImplementedError
        "Currently edge features are not supported in node-label prediction models.") ∧
    AbstractNodeLabelPredictionModel.predict_proba self graph support nf ntf (some ef)
      = Except.error (.notImplementedError
        "Currently edge features are not supported in node-label prediction models.") ∧
    AbstractNodeLabelPredictionModel.fit self graph support nf ntf (some ef)
      = Except.error (.notImplementedError
        "Currently edge features are not supported in node-label prediction models.") ∧
    AbstractNodeLabelPredictionModel.predict self graph support nf ntf (some ef)
      = AbstractNodeLabelPredictionModel.predict self2 graph2 support2 nf2 ntf2 (some ef) ∧
    AbstractNodeLabelPredictionModel.predict_proba self graph support nf ntf (some ef)
      = AbstractNodeLabelPredictionModel.predict_proba self2 graph2 support2 nf2 ntf2 (some ef) ∧
    AbstractNodeLabelPredictionModel.fit self graph support nf ntf (some ef)
      = AbstractNodeLabelPredictionModel.fit self2 graph2 support2 nf2 ntf2 (some ef) :=
  ⟨rfl, rfl, rfl, rfl, rfl, rfl⟩

/-! ## C8: NaN in Resnik similarities -/

/-- C8: `DAGResnik.get_similarities_from_graph` raises a `ValueError` (and
returns no result) whenever the engine's similarity output contains a NaN,
returns the output unmodified when it contains none, and every bipartite and
clique helper delegates to it on the built graph. -/
theorem C8_nan_in_predictions
    {G : Type} (self : ResnikEngine G) (g : RGraph G) (rdf : Bool)
    (source_node_ids destination_node_ids node_ids : List ℕ)
    (source_node_names destination_node_names node_names : List String)
    (source_node_prefixes destination_node_prefixes node_prefixes : List String)
    (source_node_types destination_node_types node_types : List String) :
    (PFloat.nan ∈ self.model_similarities g →
      DAGResnik.get_similarities_from_graph self g rdf
        = Except.error
            (.valueError "There are NaN values in the predicted probabilities!")) ∧
    (PFloat.nan ∉ self.model_similarities g →
      DAGResnik.get_similarities_from_graph self g rdf
        = Except.ok (if rdf then
            .dataframe (self.model_similarities g)
              (self.get_directed_source_node_ids g)
              (self.get_directed_destination_node_ids g)
          else .array (self.model_similarities g))) ∧
    DAGResnik.get_similarities_from_bipartite_graph_from_edge_node_ids self g
        source_node_ids destination_node_ids rdf
      = DAGResnik.get_similarities_from_graph self
          (.build_bipartite_graph_from_edge_node_ids g source_node_ids
            destination_node_ids true) rdf ∧
    DAGResnik.get_similarities_from_bipartite_graph_from_edge_node_names self g
        source_node_names destination_node_names rdf
      = DAGResnik.get_similarities_from_graph self
          (.build_bipartite_graph_from_edge_node_names g source_node_names
            destination_node_names true) rdf ∧
    DAGResnik.get_similarities_from_bipartite_graph_from_edge_node_prefixes self g
        source_node_prefixes destination_node_prefixes rdf
      = DAGResnik.get_similarities_from_graph self
          (.build_bipartite_graph_from_edge_node_prefixes g source_node_prefixes
            destination_node_prefixes true) rdf ∧
    DAGResnik.get_similarities_from_bipartite_graph_from_edge_node_types self g
        source_node_types destination_node_types rdf
      = DAGResnik.get_similarities_from_graph self
          (.build_bipartite_graph_from_edge_node_types g source_node_types
            destination_node_types true) rdf ∧
    DAGResnik.get_similarities_from_clique_graph_from_node_ids self g node_ids rdf
      = DAGResnik.get_similarities_from_graph self
          (.build_clique_graph_from_node_ids g node_ids true) rdf ∧
    DAGResnik.get_similarities_from_clique_graph_from_node_names self g node_names rdf
      = DAGResnik.get_similarities_from_graph self
          (.build_clique_graph_from_node_names g node_names true) rdf ∧
    DAGResnik.get_similarities_from_clique_graph_from_node_prefixes self g node_prefixes rdf
      = DAGResnik.get_similarities_from_graph self
          (.build_clique_graph_from_node_prefixes g node_prefixes true) rdf ∧
    DAGResnik.get_similarities_from_clique_graph_from_node_types self g node_types rdf
      = DAGResnik.get_similarities_from_graph self
          (.build_clique_graph_from_node_types g node_types true) rdf := by
  refine ⟨?_, ?_, rfl, rfl, rfl, rfl, rfl, rfl, rfl, rfl⟩
  · intro hnan
    have hany : (self.model_similarities g).any PFloat.isNaN = true :=
      List.any_eq_true.mpr ⟨PFloat.nan, hnan, rfl⟩
    unfold DAGResnik.get_similarities_from_graph
    rw [if_pos hany]
  · intro hnan
    have hany : (self.model_similarities g).any PFloat.isNaN = false := by
      rw [List.any_eq_false]
      intro x hx
      cases x with
      | nan => exact absurd hx hnan
      | num q => simp [PFloat.isNaN]
    unfold DAGResnik.get_similarities_from_graph
    rw [if_neg (by simp [hany])]
    cases rdf <;> rfl

/-! ## C9: the evaluate entry point returns nothing -/

/-- C9 (code bug): `AbstractEdgeLabelPredictionModel.evaluate` computes the
parent class's evaluation table — whose length is `2 * number_of_holdouts`
whenever every holdout contributes its two records — but its body has no
`return` statement, so the caller always receives `None` instead of that
table. -/
theorem C9_evaluate_returns_none
    {G K NF EF R : Type} (holdout_records : ℕ → List R)
    (args : EvaluateArgs G K NF EF)
    (hper : ∀ i, (holdout_records i).length = 2) :
    AbstractEdgeLabelPredictionModel.evaluate holdout_records args = none ∧
    (AbstractClassifierModel.evaluate holdout_records args).length
      = 2 * args.number_of_holdouts :=
  ⟨rfl, length_flatMap_of_two holdout_records args.number_of_holdouts hper⟩

/-! ## C10: edge-label ground truth comes from the full graph -/

/-- C10: in the edge-label `_evaluate`, both the train and the test record
score against labels taken from the full input graph — the one-hot encoded
edge types or the raw edge type ids, chosen by the fit-time flag — never from
the train or test subgraph, and no known-label mask is applied (the full,
unfiltered label array reaches both metric evaluators). -/
theorem C10_labels_from_full_graph
    {L NF EF P Pr M : Type} (self : EdgeModel L NF EF P Pr M)
    (graph train test : EdgeGraph L) (nf : Option NF) (ef : Option EF) (rs : ℤ)
    (p_tr p_te : P) (pr_tr pr_te : Pr)
    (h1 : self.predict train nf ef = Except.ok p_tr)
    (h2 : self.predict_proba train nf ef = Except.ok pr_tr)
    (h3 : self.predict test nf ef = Except.ok p_te)
    (h4 : self.predict_proba test nf ef = Except.ok pr_te) :
    AbstractEdgeLabelPredictionModel._evaluate self graph train test nf ef rs
      = Except.ok [
        { evaluation_mode := "train",
          train_size := (train.edges_number : ℚ) / (graph.edges_number : ℚ),
          edges_number := graph.edges_number,
          prediction_metrics := self.evaluate_predictions p_tr
            (if self.one_hot_encode_labels then graph.one_hot_encoded_edge_types
              else graph.edge_type_ids),
          probability_metrics := self.evaluate_prediction_probabilities pr_tr
            (if self.one_hot_encode_labels then graph.one_hot_encoded_edge_types
              else graph.edge_type_ids) },
        { evaluation_mode := "test",
          train_size := (train.edges_number : ℚ) / (graph.edges_number : ℚ),
          edges_number := graph.edges_number,
          prediction_metrics := self.evaluate_predictions p_te
            (if self.one_hot_encode_labels then graph.one_hot_encoded_edge_types
              else graph.edge_type_ids),
          probability_metrics := self.evaluate_prediction_probabilities pr_te
            (if self.one_hot_encode_labels then graph.one_hot_encoded_edge_types
              else graph.edge_type_ids) } ] := by
  unfold AbstractEdgeLabelPredictionModel._evaluate
    AbstractEdgeLabelPredictionModel.evaluate_one_mode
  simp [List.mapM, List.mapM.loop, h1, h2, h3, h4, Bind.bind, Except.bind, pure, Except.pure]

/-! ## Concrete fixtures used by the witnesses -/

/-- A concrete edge-label model: label arrays are strings and both metric
evaluators return the label array they were scored against, so the records
show which labels reached the metrics. -/
def witnessEdgeModel : EdgeModel String Unit Unit Unit Unit String where
  one_hot_encode_labels := true
  predict := fun _ _ _ => Except.ok ()
  predict_proba := fun _ _ _ => Except.ok ()
  evaluate_predictions := fun _ l => l
  evaluate_prediction_probabilities := fun _ l => l

def witnessFullGraph : EdgeGraph String where
  edges_number := 4
  one_hot_encoded_edge_types := "full-one-hot"
  edge_type_ids := "full-ids"

def witnessTrainGraph : EdgeGraph String where
  edges_number := 3
  one_hot_encoded_edge_types := "train-one-hot"
  edge_type_ids := "train-ids"

def witnessTestGraph : EdgeGraph String where
  edges_number := 1
  one_hot_encoded_edge_types := "test-one-hot"
  edge_type_ids := "test-ids"

def witnessEdgeRecords : List (EdgePerformanceRecord String) :=
  [{ evaluation_mode := "train", train_size := 3/4, edges_number := 4,
     prediction_metrics := "full-one-hot", probability_metrics := "full-one-hot" },
   { evaluation_mode := "test", train_size := 3/4, edges_number := 4,
     prediction_metrics := "full-one-hot", probability_metrics := "full-one-hot" }]

/-- A concrete node-label model for a multiclass (neither binary nor
multilabel) task. -/
def witnessNodeModel : NodeModel Unit Unit Unit Unit String where
  _is_binary_prediction_task := some false
  _is_multilabel_prediction_task := some false
  super_predict := fun _ _ _ => Except.ok [0, 1]
  super_predict_proba := fun _ _ _ => Except.ok [[1/2, 1/2], [1/4, 3/4]]
  super_fit := fun _ _ _ => Except.ok ()
  evaluate_predictions := fun _ _ => "node-preds-metric"
  evaluate_prediction_probabilities := fun _ _ => "node-probs-metric"

def witnessNodeGraph : NodeGraph where
  node_types_number := 3
  has_multilabel_node_types := false
  known_node_types_number := 4
  one_hot_encoded_node_types := [[true, false], [false, true]]
  boolean_node_type_ids := [true, false]
  single_label_node_type_ids := [0, 1]
  known_node_types_mask := [true, true]
  node_type_names_counts := [("a", 2), ("b", 2)]

def witnessNodeTrainGraph : NodeGraph where
  node_types_number := 3
  has_multilabel_node_types := false
  known_node_types_number := 3
  one_hot_encoded_node_types := [[true, false], [false, true]]
  boolean_node_type_ids := [true, false]
  single_label_node_type_ids := [0, 1]
  known_node_types_mask := [true, false]
  node_type_names_counts := [("a", 2), ("b", 1)]

def witnessNodeTestGraph : NodeGraph where
  node_types_number := 3
  has_multilabel_node_types := false
  known_node_types_number := 1
  one_hot_encoded_node_types := [[true, false], [false, true]]
  boolean_node_type_ids := [true, false]
  single_label_node_type_ids := [0, 1]
  known_node_types_mask := [false, true]
  node_type_names_counts := [("b", 1)]

def witnessNodeRecords : List (NodePerformanceRecord String) :=
  [{ evaluation_mode := "train", train_size := 3/4, known_nodes_number := 3,
     prediction_metrics := "node-preds-metric", probability_metrics := "node-probs-metric" },
   { evaluation_mode := "test", train_size := 3/4, known_nodes_number := 1,
     prediction_metrics := "node-preds-metric", probability_metrics := "node-probs-metric" }]

def witnessEvaluateArgs : EvaluateArgs Unit Unit Unit Unit where
  graph := ()
  evaluation_schema := "Monte Carlo"
  holdouts_kwargs := ()
  node_features := none
  edge_features := none
  subgraph_of_interest := none
  number_of_holdouts := 3
  random_state := 42
  verbose := true
  sample_only_edges_with_heterogeneous_node_types := false
  unbalance_rates := [1]

/-- A Resnik engine whose similarity output contains a NaN. -/
def witnessNaNEngine : ResnikEngine Unit where
  model_similarities := fun _ => [PFloat.num 1, PFloat.nan]
  get_directed_source_node_ids := fun _ => [0, 1]
  get_directed_destination_node_ids := fun _ => [1, 2]

/-- A Resnik engine whose similarity output is NaN-free. -/
def witnessCleanEngine : ResnikEngine Unit where
  model_similarities := fun _ => [PFloat.num 1, PFloat.num (1/2)]
  get_directed_source_node_ids := fun _ => [0, 1]
  get_directed_destination_node_ids := fun _ => [1, 2]

/-! ## Witnesses -/

/-- C5 witness: the hypotheses of `C5_two_records_per_holdout` are
satisfiable on concrete models and graphs. -/
theorem C5_two_records_per_holdout_witness :
    witnessEdgeRecords.length = 2 ∧
    witnessEdgeRecords.map (fun r => r.evaluation_mode) = ["train", "test"] ∧
    witnessNodeRecords.length = 2 ∧
    witnessNodeRecords.map (fun r => r.evaluation_mode) = ["train", "test"] ∧
    (AbstractClassifierModel.evaluate (fun _ => witnessEdgeRecords)
        witnessEvaluateArgs).length = 2 * witnessEvaluateArgs.number_of_holdouts :=
  C5_two_records_per_holdout witnessEdgeModel witnessFullGraph witnessTrainGraph
    witnessTestGraph none none 42 witnessEdgeRecords rfl
    witnessNodeModel witnessNodeGraph witnessNodeTrainGraph witnessNodeTestGraph
    none none witnessNodeRecords rfl
    (fun _ => witnessEdgeRecords) witnessEvaluateArgs (fun _ => rfl)

/-- C6 witness: the hypotheses of `C6_train_size_once_per_holdout` are
satisfiable on concrete models and graphs. -/
theorem C6_train_size_once_per_holdout_witness :
    witnessEdgeRecords.map (fun r => r.train_size)
      = [(witnessTrainGraph.edges_number : ℚ) / (witnessFullGraph.edges_number : ℚ),
         (witnessTrainGraph.edges_number : ℚ) / (witnessFullGraph.edges_number : ℚ)] ∧
    witnessNodeRecords.map (fun r => r.train_size)
      = [(witnessNodeTrainGraph.known_node_types_number : ℚ)
          / (witnessNodeGraph.known_node_types_number : ℚ),
         (witnessNodeTrainGraph.known_node_types_number : ℚ)
          / (witnessNodeGraph.known_node_types_number : ℚ)] :=
  C6_train_size_once_per_holdout witnessEdgeModel witnessFullGraph witnessTrainGraph
    witnessTestGraph none none 42 witnessEdgeRecords rfl
    witnessNodeModel witnessNodeGraph witnessNodeTrainGraph witnessNodeTestGraph
    none none witnessNodeRecords rfl

/-- C8 witness: the hypotheses of `C8_nan_in_predictions` are satisfiable —
an engine output with a NaN raises, a NaN-free output is returned. -/
theorem C8_nan_in_predictions_witness :
    DAGResnik.get_similarities_from_graph witnessNaNEngine (.base ()) false
      = Except.error (.valueError "There are NaN values in the predicted probabilities!") ∧
    DAGResnik.get_similarities_from_graph witnessCleanEngine (.base ()) false
      = Except.ok (.array [PFloat.num 1, PFloat.num (1/2)]) :=
  ⟨(C8_nan_in_predictions witnessNaNEngine (.base ()) false
      [] [] [] [] [] [] [] [] [] [] [] []).1 (by decide),
   (C8_nan_in_predictions witnessCleanEngine (.base ()) false
      [] [] [] [] [] [] [] [] [] [] [] []).2.1 (by decide)⟩

/-- C9 witness: the hypothesis of `C9_evaluate_returns_none` is satisfiable
at a concrete three-holdout run. -/
theorem C9_evaluate_returns_none_witness :
    AbstractEdgeLabelPredictionModel.evaluate (fun _ => witnessEdgeRecords)
      witnessEvaluateArgs = none ∧
    (AbstractClassifierModel.evaluate (fun _ => witnessEdgeRecords)
        witnessEvaluateArgs).length = 2 * witnessEvaluateArgs.number_of_holdouts :=
  C9_evaluate_returns_none (fun _ => witnessEdgeRecords) witnessEvaluateArgs (fun _ => rfl)

/-- C10 witness: the hypotheses of `C10_labels_from_full_graph` are
satisfiable; the computed records carry the full graph's one-hot labels
(`"full-one-hot"`), not the train/test subgraphs' own label arrays. -/
theorem C10_labels_from_full_graph_witness :
    AbstractEdgeLabelPredictionModel._evaluate witnessEdgeModel witnessFullGraph
      witnessTrainGraph witnessTestGraph none none 42
      = Except.ok [
        { evaluation_mode := "train", train_size := 3/4, edges_number := 4,
          prediction_metrics := "full-one-hot", probability_metrics := "full-one-hot" },
        { evaluation_mode := "test", train_size := 3/4, edges_number := 4,
          prediction_metrics := "full-one-hot", probability_metrics := "full-one-hot" } ] :=
  C10_labels_from_full_graph witnessEdgeModel witnessFullGraph witnessTrainGraph
    witnessTestGraph none none 42 () () () () rfl rfl rfl rfl

end Embiggen
